import Mathlib

/-!
  # Verification of the sebi fixed-price bond market core

  Shallow embedding of the on-chain program under
  src/blockchain/programs/sebi/src (state.rs, errors.rs and the
  instruction handlers buy.rs, sell.rs, update_price.rs, pause.rs,
  withdraw.rs), together with proofs of the testable properties of its
  specification.

  Modelling conventions:
  * Account identifiers (Pubkey) are opaque Nat values.
  * u64 and u128 machine integers are Nat values; the width checks the
    code performs (checked_mul on u128, try_into to u64) are made
    explicit against 2 ^ 128 and 2 ^ 64.
  * The external SPL-token transfer collaborator (spec section 6:
    fails on insufficient balance, otherwise moves the amount) is
    modelled by splTransfer; its own failure is the distinct error
    value tokenTransferFailed, not one of the four program errors of
    errors.rs.
  * The host execution environment applies an instruction atomically:
    if a handler returns an error every prior write is reverted. The
    raw handlers (buyRaw, sellRaw, ...) thread intermediate states
    exactly as the Rust code does, and the observable semantics
    (runBuy, runSell, ...) return the original state on any error.
  * The structural Anchor account constraint has_one = admin is run
    before the handler body; at the abstraction level of the
    specification its rejection of a non-admin caller is the
    Unauthorized failure mode (the spec's error taxonomy, section 7,
    classifies every caller-is-not-admin rejection as Unauthorized),
    so the full operations map a constraint failure to Unauthorized
    while the Core variants model the handler body alone with its
    explicit identity comparison.
-/

namespace Sebi

/-- Error kinds: the four program errors of errors.rs plus the failure
raised by the external token-transfer primitive itself. -/
inductive MarketError where
  | marketPaused
  | insufficientVaultFunds
  | unauthorized
  | mathOverflow
  | tokenTransferFailed
deriving DecidableEq

/-- The Market account of state.rs. -/
structure Market where
  bond_mint : Nat
  usdc_mint : Nat
  price_per_token : Nat
  vault_bond : Nat
  vault_usdc : Nat
  admin : Nat
  paused : Bool
  bump : Nat
deriving DecidableEq

/-- Size of the u64 range. -/
def u64Size : Nat := 2 ^ 64

/-- Size of the u128 range. -/
def u128Size : Nat := 2 ^ 128

/-- checked_mul on u128 as used in buy.rs and sell.rs: the product of
two in-range values, or none when it overflows 128 bits. -/
def checkedMulU128 (a b : Nat) : Option Nat :=
  if a * b < u128Size then some (a * b) else none

/-- The try_into::<u64> narrowing used in buy.rs and sell.rs. -/
def tryIntoU64 (n : Nat) : Option Nat :=
  if n < u64Size then some n else none

/-- The external custody-transfer collaborator (spec section 6): moves
amount from the first balance to the second; fails when the source
balance is insufficient. Returns the updated (source, destination)
pair. -/
def splTransfer (fromBal toBal amount : Nat) :
    Except MarketError (Nat × Nat) :=
  if fromBal < amount then .error .tokenTransferFailed
  else .ok (fromBal - amount, toBal + amount)

/-- Side of a trade, from buy.rs. -/
inductive TradeSide where
  | buySide
  | sellSide
deriving DecidableEq

/-- The TradeEvent record emitted by buy.rs and sell.rs. -/
structure TradeEvent where
  market : Nat
  trader : Nat
  side : TradeSide
  amount : Nat
  price : Nat
deriving DecidableEq

/-- The accounts a Buy or Sell instruction touches: the Market record,
the market account's own key, the trader's key, and the four token
account balances (trader stable, trader bond, the two vaults). -/
structure TradeState where
  market : Market
  marketId : Nat
  traderId : Nat
  trader_usdc : Nat
  trader_bond : Nat
  vault_usdc : Nat
  vault_bond : Nat
deriving DecidableEq

/-- The handler of buy.rs, step for step: pause gate, checked u128
multiplication, u64 narrowing, stable transfer buyer to vault
(authorized by the buyer), bond transfer vault to buyer (signed by the
market authority), event emission. -/
def buyRaw (st : TradeState) (amount : Nat) :
    Except MarketError (TradeState × TradeEvent) :=
  if st.market.paused then .error .marketPaused
  else
    match checkedMulU128 st.market.price_per_token amount with
    | none => .error .mathOverflow
    | some total_price_u128 =>
      match tryIntoU64 total_price_u128 with
      | none => .error .mathOverflow
      | some total_price_u64 =>
        match splTransfer st.trader_usdc st.vault_usdc total_price_u64 with
        | .error e => .error e
        | .ok (buyerUsdc, vaultUsdc) =>
          match splTransfer st.vault_bond st.trader_bond amount with
          | .error e => .error e
          | .ok (vaultBond, buyerBond) =>
            .ok ({ st with
                    trader_usdc := buyerUsdc
                    vault_usdc := vaultUsdc
                    vault_bond := vaultBond
                    trader_bond := buyerBond },
                 { market := st.marketId
                   trader := st.traderId
                   side := TradeSide.buySide
                   amount := amount
                   price := st.market.price_per_token })

/-- The handler of sell.rs, step for step: pause gate, checked u128
multiplication, u64 narrowing, bond transfer seller to vault
(authorized by the seller), the explicit vault_usdc balance check
against the balance read at instruction entry, stable transfer vault
to seller (signed by the market authority), event emission. -/
def sellRaw (st : TradeState) (amount : Nat) :
    Except MarketError (TradeState × TradeEvent) :=
  if st.market.paused then .error .marketPaused
  else
    match checkedMulU128 st.market.price_per_token amount with
    | none => .error .mathOverflow
    | some total_price_u128 =>
      match tryIntoU64 total_price_u128 with
      | none => .error .mathOverflow
      | some total_price_u64 =>
        match splTransfer st.trader_bond st.vault_bond amount with
        | .error e => .error e
        | .ok (sellerBond, vaultBond) =>
          if st.vault_usdc < total_price_u64 then
            .error .insufficientVaultFunds
          else
            match splTransfer st.vault_usdc st.trader_usdc total_price_u64 with
            | .error e => .error e
            | .ok (vaultUsdc, sellerUsdc) =>
              .ok ({ st with
                      trader_bond := sellerBond
                      vault_bond := vaultBond
                      vault_usdc := vaultUsdc
                      trader_usdc := sellerUsdc },
                   { market := st.marketId
                     trader := st.traderId
                     side := TradeSide.sellSide
                     amount := amount
                     price := st.market.price_per_token })

/-- Observable semantics of Buy: the host reverts every write when the
handler errs, so the final state is the original one on any error. -/
def runBuy (st : TradeState) (amount : Nat) : TradeState :=
  match buyRaw st amount with
  | .ok (s, _) => s
  | .error _ => st

/-- Observable semantics of Sell, with the same atomic-revert rule. -/
def runSell (st : TradeState) (amount : Nat) : TradeState :=
  match sellRaw st amount with
  | .ok (s, _) => s
  | .error _ => st

/-- The structural Anchor constraint has_one = admin on the Market
account, checked before the handler body runs. -/
def hasOneAdmin (m : Market) (caller : Nat) : Bool :=
  m.admin == caller

/-- The handler body of update_price.rs: explicit identity comparison,
then the price write. -/
def updatePriceCore (m : Market) (caller newPrice : Nat) :
    Except MarketError Market :=
  if caller ≠ m.admin then .error .unauthorized
  else .ok { m with price_per_token := newPrice }

/-- The full UpdatePrice operation: structural constraint, then the
handler body. -/
def updatePrice (m : Market) (caller newPrice : Nat) :
    Except MarketError Market :=
  if hasOneAdmin m caller then updatePriceCore m caller newPrice
  else .error .unauthorized

/-- The handler body of pause.rs: explicit identity comparison, then
the toggle of the paused flag. -/
def pauseCore (m : Market) (caller : Nat) : Except MarketError Market :=
  if caller ≠ m.admin then .error .unauthorized
  else .ok { m with paused := !m.paused }

/-- The full Pause operation: structural constraint, then the handler
body. -/
def pause (m : Market) (caller : Nat) : Except MarketError Market :=
  if hasOneAdmin m caller then pauseCore m caller
  else .error .unauthorized

/-- Observable semantics of UpdatePrice under atomic revert. -/
def runUpdatePrice (m : Market) (caller newPrice : Nat) : Market :=
  match updatePrice m caller newPrice with
  | .ok m2 => m2
  | .error _ => m

/-- Observable semantics of Pause under atomic revert. -/
def runPause (m : Market) (caller : Nat) : Market :=
  match pause m caller with
  | .ok m2 => m2
  | .error _ => m

/-- The accounts a Withdraw instruction touches: the Market record,
the calling signer, the destination token account (its owner and its
balance) and the two vault balances. -/
structure WithdrawState where
  market : Market
  caller : Nat
  destinationOwner : Nat
  destination : Nat
  vault_bond : Nat
  vault_usdc : Nat
deriving DecidableEq

/-- The handler body of withdraw.rs: explicit identity comparison,
then a transfer of amount from the selected vault (stable when is_usdc
holds, bond otherwise) to the destination, signed by the market
authority, with no balance pre-check of its own. -/
def withdrawCore (st : WithdrawState) (amount : Nat) (is_usdc : Bool) :
    Except MarketError WithdrawState :=
  if st.caller ≠ st.market.admin then .error .unauthorized
  else if is_usdc then
    match splTransfer st.vault_usdc st.destination amount with
    | .error e => .error e
    | .ok (vu, d) => .ok { st with vault_usdc := vu, destination := d }
  else
    match splTransfer st.vault_bond st.destination amount with
    | .error e => .error e
    | .ok (vb, d) => .ok { st with vault_bond := vb, destination := d }

/-- The full Withdraw operation: the structural has_one = admin
constraint and the destination-owned-by-admin constraint, then the
handler body. -/
def withdraw (st : WithdrawState) (amount : Nat) (is_usdc : Bool) :
    Except MarketError WithdrawState :=
  if hasOneAdmin st.market st.caller && (st.destinationOwner == st.caller) then
    withdrawCore st amount is_usdc
  else .error .unauthorized

/-- Observable semantics of Withdraw under atomic revert. -/
def runWithdraw (st : WithdrawState) (amount : Nat) (is_usdc : Bool) :
    WithdrawState :=
  match withdraw st amount is_usdc with
  | .ok s => s
  | .error _ => st

/-- Sample market used by concrete witnesses: price 1000000, not
paused, admin key 5. -/
def egMarket : Market :=
  { bond_mint := 1
    usdc_mint := 2
    price_per_token := 1000000
    vault_bond := 3
    vault_usdc := 4
    admin := 5
    paused := false
    bump := 254 }

/-- Sample trade state used by concrete witnesses. -/
def egTrade : TradeState :=
  { market := egMarket
    marketId := 10
    traderId := 11
    trader_usdc := 10000000
    trader_bond := 2
    vault_usdc := 7000000
    vault_bond := 9 }

/-- State refuting the unconditional sell iff claim: the seller holds
no bond units, so the very first transfer of the handler fails inside
the token program, although the stable vault is also underfunded. -/
def c1CounterState : TradeState :=
  { market :=
      { bond_mint := 1
        usdc_mint := 2
        price_per_token := 1
        vault_bond := 3
        vault_usdc := 4
        admin := 5
        paused := false
        bump := 254 }
    marketId := 10
    traderId := 11
    trader_usdc := 0
    trader_bond := 0
    vault_usdc := 0
    vault_bond := 0 }

/-- Sample trade state whose price makes every nonzero trade overflow
the u64 narrowing. -/
def egOverflowTrade : TradeState :=
  { market := { egMarket with price_per_token := 2 ^ 64 }
    marketId := 10
    traderId := 11
    trader_usdc := 50
    trader_bond := 50
    vault_usdc := 50
    vault_bond := 50 }

/-- Sample withdraw state used by concrete witnesses: caller is the
recorded admin and owns the destination. -/
def egWithdraw : WithdrawState :=
  { market := egMarket
    caller := 5
    destinationOwner := 5
    destination := 100
    vault_bond := 40
    vault_usdc := 60 }

/-- Sample paused trade state used by concrete witnesses. -/
def egPausedTrade : TradeState :=
  { egTrade with market := { egMarket with paused := true } }

/-- Sample trade state where the seller holds the bonds but the stable
vault cannot cover the proceeds: price 2, five bonds held, vault
balance 3 against proceeds 10. -/
def egSellShortVault : TradeState :=
  { market := { egMarket with price_per_token := 2 }
    marketId := 10
    traderId := 11
    trader_usdc := 0
    trader_bond := 5
    vault_usdc := 3
    vault_bond := 0 }

/-- Sample withdraw state whose caller (key 6) is not the recorded
admin (key 5). -/
def egBadWithdraw : WithdrawState :=
  { egWithdraw with caller := 6, destinationOwner := 6 }

/-! ## Helper lemmas shared by several claims -/

/-- Success characterization of Buy: whenever the market is unpaused,
the total fits in u64 and both source balances cover their transfer,
the handler succeeds with exactly the two paired movements and the
trade event of buy.rs. -/
theorem buy_ok_eq (st : TradeState) (q : Nat)
    (hp : st.market.paused = false)
    (hmul : st.market.price_per_token * q < u64Size)
    (hbal : st.market.price_per_token * q ≤ st.trader_usdc)
    (hvb : q ≤ st.vault_bond) :
    buyRaw st q = .ok
      ({ st with
          trader_usdc := st.trader_usdc - st.market.price_per_token * q
          vault_usdc := st.vault_usdc + st.market.price_per_token * q
          vault_bond := st.vault_bond - q
          trader_bond := st.trader_bond + q },
       { market := st.marketId
         trader := st.traderId
         side := TradeSide.buySide
         amount := q
         price := st.market.price_per_token }) := by
  have h128 : st.market.price_per_token * q < u128Size :=
    lt_trans hmul (by norm_num [u64Size, u128Size])
  simp [buyRaw, checkedMulU128, tryIntoU64, splTransfer, hp, h128, hmul,
        Nat.not_lt.mpr hbal, Nat.not_lt.mpr hvb]

/-- Success characterization of Sell: whenever the market is unpaused,
the total fits in u64, the seller holds the bonds and the stable vault
covers the proceeds, the handler succeeds with exactly the two paired
movements and the trade event of sell.rs. -/
theorem sell_ok_eq (st : TradeState) (q : Nat)
    (hp : st.market.paused = false)
    (hmul : st.market.price_per_token * q < u64Size)
    (hbond : q ≤ st.trader_bond)
    (hvault : st.market.price_per_token * q ≤ st.vault_usdc) :
    sellRaw st q = .ok
      ({ st with
          trader_bond := st.trader_bond - q
          vault_bond := st.vault_bond + q
          vault_usdc := st.vault_usdc - st.market.price_per_token * q
          trader_usdc := st.trader_usdc + st.market.price_per_token * q },
       { market := st.marketId
         trader := st.traderId
         side := TradeSide.sellSide
         amount := q
         price := st.market.price_per_token }) := by
  have h128 : st.market.price_per_token * q < u128Size :=
    lt_trans hmul (by norm_num [u64Size, u128Size])
  simp [sellRaw, checkedMulU128, tryIntoU64, splTransfer, hp, h128, hmul,
        Nat.not_lt.mpr hbond, Nat.not_lt.mpr hvault]

/-- Buy never writes any Market record field. -/
theorem runBuy_market (st : TradeState) (q : Nat) :
    (runBuy st q).market = st.market := by
  unfold runBuy
  split
  next s e heq =>
    unfold buyRaw at heq
    repeat' split at heq
    all_goals cases heq
    all_goals rfl
  next => rfl

/-- Sell never writes any Market record field. -/
theorem runSell_market (st : TradeState) (q : Nat) :
    (runSell st q).market = st.market := by
  unfold runSell
  split
  next s e heq =>
    unfold sellRaw at heq
    repeat' split at heq
    all_goals cases heq
    all_goals rfl
  next => rfl

/-- Withdraw never writes any Market record field. -/
theorem runWithdraw_market (st : WithdrawState) (a : Nat) (sel : Bool) :
    (runWithdraw st a sel).market = st.market := by
  unfold runWithdraw
  split
  next s heq =>
    unfold withdraw withdrawCore at heq
    repeat' split at heq
    all_goals cases heq
    all_goals rfl
  next => rfl

/-- A Buy whose handler errs leaves the observable state untouched. -/
theorem runBuy_of_error (st : TradeState) (q : Nat) (e : MarketError)
    (h : buyRaw st q = .error e) : runBuy st q = st := by
  simp [runBuy, h]

/-- A Sell whose handler errs leaves the observable state untouched. -/
theorem runSell_of_error (st : TradeState) (q : Nat) (e : MarketError)
    (h : sellRaw st q = .error e) : runSell st q = st := by
  simp [runSell, h]

/-! ## Claim theorems -/

/-- C4: whenever the Market's paused flag is true, every Buy and every
Sell call fails with MarketPaused (the very first check of both
handlers), and the observable state, balances and Market record
included, is unchanged. -/
theorem buy_sell_paused (st : TradeState) (q : Nat)
    (hp : st.market.paused = true) :
    buyRaw st q = .error .marketPaused ∧
    sellRaw st q = .error .marketPaused ∧
    runBuy st q = st ∧ runSell st q = st := by
  have hb : buyRaw st q = .error .marketPaused := by simp [buyRaw, hp]
  have hs : sellRaw st q = .error .marketPaused := by simp [sellRaw, hp]
  exact ⟨hb, hs, runBuy_of_error st q _ hb, runSell_of_error st q _ hs⟩

/-- C4 witness: on the sample paused market, buy(1) and sell(1) fail
with MarketPaused and change nothing. -/
theorem buy_sell_paused_witness :
    buyRaw egPausedTrade 1 = .error .marketPaused ∧
    sellRaw egPausedTrade 1 = .error .marketPaused ∧
    runBuy egPausedTrade 1 = egPausedTrade ∧
    runSell egPausedTrade 1 = egPausedTrade :=
  buy_sell_paused egPausedTrade 1 rfl

/-- C2: whenever price_per_token * quantity overflows 128 bits or its
128-bit value does not fit in u64 (together: the product is at least
2 ^ 64), Buy and Sell on an unpaused market fail with MathOverflow
and the observable state, balances and Market record included, is
unchanged. -/
theorem buy_sell_overflow (st : TradeState) (q : Nat)
    (hp : st.market.paused = false)
    (hov : u64Size ≤ st.market.price_per_token * q) :
    buyRaw st q = .error .mathOverflow ∧
    sellRaw st q = .error .mathOverflow ∧
    runBuy st q = st ∧ runSell st q = st := by
  have hb : buyRaw st q = .error .mathOverflow := by
    rcases Nat.lt_or_ge (st.market.price_per_token * q) u128Size with h | h
    · simp [buyRaw, checkedMulU128, tryIntoU64, hp, h, Nat.not_lt.mpr hov]
    · simp [buyRaw, checkedMulU128, hp, Nat.not_lt.mpr h]
  have hs : sellRaw st q = .error .mathOverflow := by
    rcases Nat.lt_or_ge (st.market.price_per_token * q) u128Size with h | h
    · simp [sellRaw, checkedMulU128, tryIntoU64, hp, h, Nat.not_lt.mpr hov]
    · simp [sellRaw, checkedMulU128, hp, Nat.not_lt.mpr h]
  exact ⟨hb, hs, runBuy_of_error st q _ hb, runSell_of_error st q _ hs⟩

/-- C2 witness: at price 2 ^ 64 the one-unit trade total does not fit
in u64, so buy(1) and sell(1) fail with MathOverflow and change
nothing. -/
theorem buy_sell_overflow_witness :
    buyRaw egOverflowTrade 1 = .error .mathOverflow ∧
    sellRaw egOverflowTrade 1 = .error .mathOverflow ∧
    runBuy egOverflowTrade 1 = egOverflowTrade ∧
    runSell egOverflowTrade 1 = egOverflowTrade :=
  buy_sell_overflow egOverflowTrade 1 rfl (by decide)

/-- C10: neither handler rejects a zero quantity: on an unpaused
market, buy(0) and sell(0) succeed, the computed total is 0, zero
units move in both directions (the final state equals the initial
one), and a trade record with amount 0 is still emitted. -/
theorem buy_sell_zero_quantity (st : TradeState)
    (hp : st.market.paused = false) :
    buyRaw st 0 = .ok (st,
      { market := st.marketId
        trader := st.traderId
        side := TradeSide.buySide
        amount := 0
        price := st.market.price_per_token }) ∧
    sellRaw st 0 = .ok (st,
      { market := st.marketId
        trader := st.traderId
        side := TradeSide.sellSide
        amount := 0
        price := st.market.price_per_token }) := by
  constructor
  · have h := buy_ok_eq st 0 hp (by norm_num [u64Size]) (Nat.zero_le _)
      (Nat.zero_le _)
    simpa using h
  · have h := sell_ok_eq st 0 hp (by norm_num [u64Size]) (Nat.zero_le _)
      (Nat.zero_le _)
    simpa using h

/-- C10 witness: on the sample unpaused market, buy(0) and sell(0)
succeed, change nothing, and emit amount-0 events. -/
theorem buy_sell_zero_quantity_witness :
    buyRaw egTrade 0 = .ok (egTrade,
      { market := 10
        trader := 11
        side := TradeSide.buySide
        amount := 0
        price := 1000000 }) ∧
    sellRaw egTrade 0 = .ok (egTrade,
      { market := 10
        trader := 11
        side := TradeSide.sellSide
        amount := 0
        price := 1000000 }) :=
  buy_sell_zero_quantity egTrade rfl

/-- C5: every successful Buy of quantity q on an unpaused market moves
exactly price_per_token * q stable units from the buyer to the stable
vault and exactly q bond units from the bond vault to the buyer, and
emits the trade record with trader = buyer, side = Buy, amount = q and
price = price_per_token; the hypotheses are exactly the conditions
under which the handler succeeds. -/
theorem buy_moves_exact (st : TradeState) (q : Nat)
    (hp : st.market.paused = false)
    (hmul : st.market.price_per_token * q < u64Size)
    (hbal : st.market.price_per_token * q ≤ st.trader_usdc)
    (hvb : q ≤ st.vault_bond) :
    buyRaw st q = .ok
      ({ st with
          trader_usdc := st.trader_usdc - st.market.price_per_token * q
          vault_usdc := st.vault_usdc + st.market.price_per_token * q
          vault_bond := st.vault_bond - q
          trader_bond := st.trader_bond + q },
       { market := st.marketId
         trader := st.traderId
         side := TradeSide.buySide
         amount := q
         price := st.market.price_per_token }) := by
  exact buy_ok_eq st q hp hmul hbal hvb

/-- C5 witness: the concrete scenario of the spec: price 1000000,
buy(5) debits 5000000 stable units from the buyer, credits 5 bond
units, and emits the Buy event with amount 5 and price 1000000. -/
theorem buy_moves_exact_witness :
    buyRaw egTrade 5 = .ok
      ({ egTrade with
          trader_usdc := 5000000
          vault_usdc := 12000000
          vault_bond := 4
          trader_bond := 7 },
       { market := 10
         trader := 11
         side := TradeSide.buySide
         amount := 5
         price := 1000000 }) :=
  buy_moves_exact egTrade 5 rfl (by decide) (by decide) (by decide)

/-- C6: a successful Pause call by the admin flips the current value
of the paused boolean, and two consecutive successful Pause calls
leave paused at its original value. -/
theorem pause_toggles (m : Market) (caller : Nat)
    (h : caller = m.admin) :
    pause m caller = .ok { m with paused := !m.paused } ∧
    (runPause (runPause m caller) caller).paused = m.paused := by
  constructor
  · simp [pause, pauseCore, hasOneAdmin, h]
  · simp [runPause, pause, pauseCore, hasOneAdmin, h]

/-- C6 witness: on the sample market the admin's Pause call sets
paused to true, and a second call restores false. -/
theorem pause_toggles_witness :
    pause egMarket 5 = .ok { egMarket with paused := true } ∧
    (runPause (runPause egMarket 5) 5).paused = egMarket.paused :=
  pause_toggles egMarket 5 rfl

/-- C7: a successful buy(q) followed by a sell(q) at the unchanged
price returns the trader's bond and stable balances and both vault
balances to their values before the buy; the hypotheses make the buy
succeed, and the sell then succeeds automatically. -/
theorem buy_then_sell_roundtrip (st : TradeState) (q : Nat)
    (hp : st.market.paused = false)
    (hmul : st.market.price_per_token * q < u64Size)
    (hbal : st.market.price_per_token * q ≤ st.trader_usdc)
    (hvb : q ≤ st.vault_bond) :
    runSell (runBuy st q) q = st := by
  have hb := buy_ok_eq st q hp hmul hbal hvb
  have hrb : runBuy st q =
      { st with
          trader_usdc := st.trader_usdc - st.market.price_per_token * q
          vault_usdc := st.vault_usdc + st.market.price_per_token * q
          vault_bond := st.vault_bond - q
          trader_bond := st.trader_bond + q } := by
    simp [runBuy, hb]
  rw [hrb]
  have hs := sell_ok_eq
      { st with
          trader_usdc := st.trader_usdc - st.market.price_per_token * q
          vault_usdc := st.vault_usdc + st.market.price_per_token * q
          vault_bond := st.vault_bond - q
          trader_bond := st.trader_bond + q } q hp hmul
      (Nat.le_add_left q st.trader_bond)
      (Nat.le_add_left (st.market.price_per_token * q) st.vault_usdc)
  simp only [runSell, hs]
  simp [Nat.add_sub_cancel, Nat.sub_add_cancel hvb, Nat.sub_add_cancel hbal]

/-- C7 witness: on the sample market, buy(5) then sell(5) restores the
initial state exactly. -/
theorem buy_then_sell_roundtrip_witness :
    runSell (runBuy egTrade 5) 5 = egTrade :=
  buy_then_sell_roundtrip egTrade 5 rfl (by decide) (by decide) (by decide)

/-- C1 counterexample: the unconditional iff fails. On an unpaused
market with price 1, a seller holding no bond units who sells 1 while
the stable vault holds 0 satisfies the vault-underfunded condition,
yet the call fails inside the token-transfer primitive at step 1 (the
seller's bond debit), not with InsufficientVaultFunds. -/
theorem sell_insufficient_iff_counterexample :
    c1CounterState.market.paused = false ∧
    c1CounterState.market.price_per_token * 1 < u64Size ∧
    c1CounterState.vault_usdc < c1CounterState.market.price_per_token * 1 ∧
    sellRaw c1CounterState 1 = .error .tokenTransferFailed ∧
    MarketError.tokenTransferFailed ≠ MarketError.insufficientVaultFunds :=
  ⟨rfl, by decide, by decide, rfl, by decide⟩

/-- C1 (amended): for every Sell on an unpaused market whose total
fits in u64 and whose seller holds at least the sold quantity of
bonds, the call fails with InsufficientVaultFunds if and only if the
stable vault balance at check time (the balance read at instruction
entry) is less than price_per_token * quantity; and in that failure
case the observable state, the seller's bond balance and the bond
vault balance included, is exactly the pre-call state. -/
theorem sell_insufficient_iff (st : TradeState) (q : Nat)
    (hp : st.market.paused = false)
    (hmul : st.market.price_per_token * q < u64Size)
    (hbond : q ≤ st.trader_bond) :
    (sellRaw st q = .error .insufficientVaultFunds ↔
      st.vault_usdc < st.market.price_per_token * q) ∧
    (st.vault_usdc < st.market.price_per_token * q →
      runSell st q = st) := by
  have h128 : st.market.price_per_token * q < u128Size :=
    lt_trans hmul (by norm_num [u64Size, u128Size])
  have hfail : st.vault_usdc < st.market.price_per_token * q →
      sellRaw st q = .error .insufficientVaultFunds := by
    intro hlt
    simp [sellRaw, checkedMulU128, tryIntoU64, splTransfer, hp, h128,
          hmul, Nat.not_lt.mpr hbond, hlt]
  constructor
  · constructor
    · intro h
      by_contra hge
      rw [Nat.not_lt] at hge
      rw [sell_ok_eq st q hp hmul hbond hge] at h
      cases h
    · exact hfail
  · intro hlt
    exact runSell_of_error st q _ (hfail hlt)

/-- C1 (amended) witness: price 2, seller holds 5 bonds, vault holds 3
against proceeds 10: the iff instance holds and the failed sell leaves
the state untouched. -/
theorem sell_insufficient_iff_witness :
    (sellRaw egSellShortVault 5 = .error .insufficientVaultFunds ↔
      egSellShortVault.vault_usdc <
        egSellShortVault.market.price_per_token * 5) ∧
    (egSellShortVault.vault_usdc <
        egSellShortVault.market.price_per_token * 5 →
      runSell egSellShortVault 5 = egSellShortVault) :=
  sell_insufficient_iff egSellShortVault 5 rfl (by decide) (by decide)

/-- C3: every caller distinct from the recorded admin fails each of
UpdatePrice, Pause and Withdraw with Unauthorized and mutates nothing;
moreover for Withdraw both independent mechanisms reject on their own:
the structural has_one constraint evaluates to false, and the handler
body's explicit comparison alone also returns Unauthorized. -/
theorem admin_only_ops (m : Market) (sw : WithdrawState)
    (caller newPrice a : Nat) (sel : Bool)
    (hm : caller ≠ m.admin) (hw : sw.caller ≠ sw.market.admin) :
    updatePrice m caller newPrice = .error .unauthorized ∧
    pause m caller = .error .unauthorized ∧
    withdraw sw a sel = .error .unauthorized ∧
    runUpdatePrice m caller newPrice = m ∧
    runPause m caller = m ∧
    runWithdraw sw a sel = sw ∧
    hasOneAdmin sw.market sw.caller = false ∧
    withdrawCore sw a sel = .error .unauthorized := by
  have h1 : hasOneAdmin m caller = false := by
    simp [hasOneAdmin]
    exact Ne.symm hm
  have h2 : hasOneAdmin sw.market sw.caller = false := by
    simp [hasOneAdmin]
    exact Ne.symm hw
  have hu : updatePrice m caller newPrice = .error .unauthorized := by
    simp [updatePrice, h1]
  have hpz : pause m caller = .error .unauthorized := by
    simp [pause, h1]
  have hwd : withdraw sw a sel = .error .unauthorized := by
    simp [withdraw, h2]
  have hcore : withdrawCore sw a sel = .error .unauthorized := by
    simp [withdrawCore, hw]
  exact ⟨hu, hpz, hwd,
    by simp [runUpdatePrice, hu],
    by simp [runPause, hpz],
    by simp [runWithdraw, hwd],
    h2, hcore⟩

/-- C3 witness: caller 6 against recorded admin 5 fails all three
operations with Unauthorized and mutates nothing, and both Withdraw
mechanisms reject independently. -/
theorem admin_only_ops_witness :
    updatePrice egMarket 6 42 = .error .unauthorized ∧
    pause egMarket 6 = .error .unauthorized ∧
    withdraw egBadWithdraw 7 true = .error .unauthorized ∧
    runUpdatePrice egMarket 6 42 = egMarket ∧
    runPause egMarket 6 = egMarket ∧
    runWithdraw egBadWithdraw 7 true = egBadWithdraw ∧
    hasOneAdmin egBadWithdraw.market egBadWithdraw.caller = false ∧
    withdrawCore egBadWithdraw 7 true = .error .unauthorized :=
  admin_only_ops egMarket egBadWithdraw 6 42 7 true (by decide) (by decide)

/-- C8: Withdraw never reads the paused flag: for every value b of
paused, an admin Withdraw of amount a with a given asset selector has
the same outcome formula, moving a units from the selected vault to
the admin-owned destination, with no explicit balance pre-check (an
underfunded vault fails only inside the transfer primitive itself). -/
theorem withdraw_ignores_paused (st : WithdrawState) (a : Nat)
    (sel : Bool) (b : Bool)
    (hadmin : st.caller = st.market.admin)
    (hdest : st.destinationOwner = st.caller) :
    withdraw { st with market := { st.market with paused := b } } a sel =
      (if sel then
        (if st.vault_usdc < a then .error .tokenTransferFailed
         else .ok { st with
                     market := { st.market with paused := b }
                     vault_usdc := st.vault_usdc - a
                     destination := st.destination + a })
       else
        (if st.vault_bond < a then .error .tokenTransferFailed
         else .ok { st with
                     market := { st.market with paused := b }
                     vault_bond := st.vault_bond - a
                     destination := st.destination + a })) := by
  simp [withdraw, withdrawCore, hasOneAdmin, splTransfer, hadmin, hdest]
  split_ifs <;> rfl

/-- C8 witness: the admin withdraws 50 stable units from the sample
vault on a paused market, receiving exactly 50 at the destination. -/
theorem withdraw_ignores_paused_witness :
    withdraw { egWithdraw with
                market := { egMarket with paused := true } } 50 true =
      (if true then
        (if egWithdraw.vault_usdc < 50 then .error .tokenTransferFailed
         else .ok { egWithdraw with
                     market := { egMarket with paused := true }
                     vault_usdc := egWithdraw.vault_usdc - 50
                     destination := egWithdraw.destination + 50 })
       else
        (if egWithdraw.vault_bond < 50 then .error .tokenTransferFailed
         else .ok { egWithdraw with
                     market := { egMarket with paused := true }
                     vault_bond := egWithdraw.vault_bond - 50
                     destination := egWithdraw.destination + 50 })) :=
  withdraw_ignores_paused egWithdraw 50 true true rfl rfl

/-- C9: frame conditions of every operation. Buy, Sell and Withdraw
never change any Market record field, whatever their outcome;
UpdatePrice changes at most price_per_token; Pause changes at most
paused. -/
theorem ops_market_frame :
    (∀ (st : TradeState) (q : Nat),
      (runBuy st q).market = st.market ∧
      (runSell st q).market = st.market) ∧
    (∀ (sw : WithdrawState) (a : Nat) (sel : Bool),
      (runWithdraw sw a sel).market = sw.market) ∧
    (∀ (m : Market) (caller newPrice : Nat),
      (runUpdatePrice m caller newPrice).bond_mint = m.bond_mint ∧
      (runUpdatePrice m caller newPrice).usdc_mint = m.usdc_mint ∧
      (runUpdatePrice m caller newPrice).vault_bond = m.vault_bond ∧
      (runUpdatePrice m caller newPrice).vault_usdc = m.vault_usdc ∧
      (runUpdatePrice m caller newPrice).admin = m.admin ∧
      (runUpdatePrice m caller newPrice).paused = m.paused ∧
      (runUpdatePrice m caller newPrice).bump = m.bump) ∧
    (∀ (m : Market) (caller : Nat),
      (runPause m caller).bond_mint = m.bond_mint ∧
      (runPause m caller).usdc_mint = m.usdc_mint ∧
      (runPause m caller).price_per_token = m.price_per_token ∧
      (runPause m caller).vault_bond = m.vault_bond ∧
      (runPause m caller).vault_usdc = m.vault_usdc ∧
      (runPause m caller).admin = m.admin ∧
      (runPause m caller).bump = m.bump) := by
  refine ⟨fun st q => ⟨runBuy_market st q, runSell_market st q⟩,
    fun sw a sel => runWithdraw_market sw a sel, ?_, ?_⟩
  · intro m caller newPrice
    unfold runUpdatePrice
    split
    next m2 heq =>
      unfold updatePrice updatePriceCore at heq
      repeat' split at heq
      all_goals cases heq
      all_goals exact ⟨rfl, rfl, rfl, rfl, rfl, rfl, rfl⟩
    next => exact ⟨rfl, rfl, rfl, rfl, rfl, rfl, rfl⟩
  · intro m caller
    unfold runPause
    split
    next m2 heq =>
      unfold pause pauseCore at heq
      repeat' split at heq
      all_goals cases heq
      all_goals exact ⟨rfl, rfl, rfl, rfl, rfl, rfl, rfl⟩
    next => exact ⟨rfl, rfl, rfl, rfl, rfl, rfl, rfl⟩

end Sebi
